import Mathlib

/-!
Shallow embedding of the `sql_with_cpp::CrudWrapper` layer
(src/include/crud-wrapper/CrudWrapper.hpp over the ICruddable interface).

The wrapper's own logic (statement construction, header-row convention,
null-statement fallbacks, error surfacing) is translated directly from the
C++ source.  The embedded SQLite engine it delegates to is not part of the
repository; the engine calls the wrapper makes (`sqlite3_open`,
`sqlite3_prepare_v2` of a SELECT-ALL statement, `sqlite3_step`,
`sqlite3_column_name` / `sqlite3_column_text`, `sqlite3_exec`,
`sqlite3_reset`, `sqlite3_bind_text`) are modelled as executable functions
over an abstract database state, following the engine semantics the
wrapper relies on.
-/

namespace SqlWithCpp

/-- A stored SQLite column value, as relevant to the wrapper: everything is
read back through `sqlite3_column_text`, i.e. stringified. -/
inductive SqlValue where
  | intV (i : Int)
  | textV (s : String)
deriving DecidableEq, Repr

/-- The text representation `sqlite3_column_text` produces for a value. -/
def valueToText : SqlValue → String
  | .intV i => toString i
  | .textV s => s

/-- A table: declared column names (in schema order) and stored rows
(in storage order). -/
structure Table where
  columns : List String
  rows : List (List SqlValue)
deriving DecidableEq, Repr

/-- Schema discipline the engine maintains: every stored row has exactly
one value per declared column. -/
def Table.wellFormed (t : Table) : Prop :=
  ∀ r ∈ t.rows, r.length = t.columns.length

instance (t : Table) : Decidable t.wellFormed :=
  inferInstanceAs (Decidable (∀ r ∈ t.rows, r.length = t.columns.length))

/-- A database: named tables.  Name lookup finds the first match. -/
abbrev Database := List (String × Table)

/-- Resolve a table name in the database (first match wins). -/
def lookupTable : Database → String → Option Table
  | [], _ => none
  | (n, t) :: rest, name => if n = name then some t else lookupTable rest name

/-- A prepared statement handle (`sqlite3_stmt`): result-shape metadata,
the result rows the engine will step through, the bind-parameter count,
the currently bound parameters (by 1-based position) and the step cursor
(how many result rows have already been stepped past). -/
structure Stmt where
  columns : List String
  resultRows : List (List SqlValue)
  paramCount : Nat
  bindings : List (Nat × String)
  cursor : Nat
deriving DecidableEq, Repr

/-- `CrudWrapper`'s data members: the database path and the owned database
handle (`none` models a null `m_db`). -/
structure CrudWrapper where
  m_db_path : String
  m_db : Option Database
deriving DecidableEq, Repr

/-- `CrudWrapper::initializeStatement` applied to the text
`"SELECT * FROM " + tableName`: a null database handle yields a null
statement; otherwise `sqlite3_prepare_v2` compiles the select — it fails
(null statement out) when the table does not exist, and otherwise yields a
fresh statement over the table's declared columns and stored rows, with no
parameters bound and the cursor at the start. -/
def initializeStatement (db : Option Database) (tableName : String) : Option Stmt :=
  match db with
  | none => none
  | some d =>
    match lookupTable d tableName with
    | none => none
    | some t => some ⟨t.columns, t.rows, 0, [], 0⟩

/-- `CrudWrapper::buildSelectAllFromTableStatement`: delegates to
`initializeStatement` on the select-all text for the table name. -/
def buildSelectAllFromTableStatement (db : Option Database) (tableName : String) :
    Option Stmt :=
  initializeStatement db tableName

/-- `sqlite3_column_name` for column index `i` of a statement. -/
def columnName (s : Stmt) (i : Nat) : String :=
  s.columns.getD i ""

/-- `CrudWrapper::getColumnsNamesFromStatement`: empty list on a null
statement; otherwise reads `sqlite3_column_name` for each index below
`sqlite3_column_count`. -/
def getColumnsNamesFromStatement : Option Stmt → List String
  | none => []
  | some s => (List.range s.columns.length).map (columnName s)

/-- `sqlite3_column_text` of column `i` of the current row, stringified. -/
def columnText (row : List SqlValue) (i : Nat) : String :=
  valueToText (row.getD i (.textV ""))

/-- The `while (sqlite3_step(...) == SQLITE_ROW)` loop of
`CrudWrapper::getRowsFromStatement`: for each remaining result row it
collects `sqlite3_column_text` for each index below `noOfColumns` (the
header width), whatever the width of the stepped row. -/
def stepRows (noOfColumns : Nat) : List (List SqlValue) → List (List String)
  | [] => []
  | row :: rest => (List.range noOfColumns).map (columnText row) :: stepRows noOfColumns rest

/-- `CrudWrapper::getRowsFromStatement`: first row is the column-name
header; then the step loop.  Stepping a null statement yields
`SQLITE_MISUSE`, not `SQLITE_ROW`, so no data rows are produced. -/
def getRowsFromStatement (stmt : Option Stmt) : List (List String) :=
  let header := getColumnsNamesFromStatement stmt
  let dataRows :=
    match stmt with
    | none => []
    | some s => stepRows header.length (s.resultRows.drop s.cursor)
  header :: dataRows

/-- The two exception kinds the `CrudWrapper` constructor can throw:
`std::filesystem::filesystem_error` ("Path to database not found!") and
`std::runtime_error` ("Failed to open database"). -/
inductive ConstructionError where
  | filesystemError
  | runtimeError
deriving DecidableEq, Repr

/-- The environment the constructor consults: `std::filesystem::exists`
and `sqlite3_open` (which yields a database handle on `SQLITE_OK` and no
handle otherwise). -/
structure SystemEnv where
  pathExists : String → Bool
  openDb : String → Option Database

/-- The `CrudWrapper` parametrized constructor: throws a filesystem error
when the path does not exist, otherwise calls `sqlite3_open` and throws a
runtime error when it fails; on success the instance owns the opened
handle. -/
def crudWrapperCtor (env : SystemEnv) (path : String) :
    Except ConstructionError CrudWrapper :=
  if env.pathExists path = false then
    .error .filesystemError
  else
    match env.openDb path with
    | none => .error .runtimeError
    | some d => .ok ⟨path, some d⟩

/-- `CrudWrapper::peekColumnsNames`. -/
def CrudWrapper.peekColumnsNames (w : CrudWrapper) (tableName : String) : List String :=
  getColumnsNamesFromStatement (buildSelectAllFromTableStatement w.m_db tableName)

/-- `CrudWrapper::getRows` (table-name overload). -/
def CrudWrapper.getRows (w : CrudWrapper) (tableName : String) : List (List String) :=
  getRowsFromStatement (buildSelectAllFromTableStatement w.m_db tableName)

/-- One SQL statement of the kinds the wrapper's raw-execution interface is
used for (DDL/DML with no result set); parsing of the semicolon-separated
text is owned by the engine, so scripts are modelled as statement lists. -/
inductive SqlStmt where
  | createTable (name : String) (cols : List String)
  | insertInto (name : String) (vals : List SqlValue)
  | dropTable (name : String)
deriving DecidableEq, Repr

/-- Replace the (first) table entry with the given name. -/
def updateTable : Database → String → Table → Database
  | [], _, _ => []
  | (n, t) :: rest, name, tbl =>
    if n = name then (name, tbl) :: rest else (n, t) :: updateTable rest name tbl

/-- Remove every table entry with the given name. -/
def removeTable (db : Database) (name : String) : Database :=
  db.filter (fun p => p.1 ≠ name)

/-- Engine semantics of a single statement: `none` is an engine error
(duplicate table on create, unknown table on insert or drop, arity
mismatch on insert). -/
def execStmt (db : Database) : SqlStmt → Option Database
  | .createTable name cols =>
    match lookupTable db name with
    | some _ => none
    | none => some (db ++ [(name, ⟨cols, []⟩)])
  | .insertInto name vals =>
    match lookupTable db name with
    | none => none
    | some t =>
      if vals.length = t.columns.length then
        some (updateTable db name ⟨t.columns, t.rows ++ [vals]⟩)
      else none
  | .dropTable name =>
    match lookupTable db name with
    | none => none
    | some _ => some (removeTable db name)

/-- Whole-script engine semantics: `some` exactly when every statement
executes successfully. -/
def execStmts (db : Database) : List SqlStmt → Option Database
  | [] => some db
  | s :: rest =>
    match execStmt db s with
    | none => none
    | some db2 => execStmts db2 rest

/-- `sqlite3_exec` over a script: runs statements in order, stops at the
first error (keeping the effects of the statements already run) and
reports whether everything succeeded (`SQLITE_OK`). -/
def sqlite3Exec (db : Database) : List SqlStmt → Bool × Database
  | [] => (true, db)
  | s :: rest =>
    match execStmt db s with
    | none => (false, db)
    | some db2 => sqlite3Exec db2 rest

/-- `CrudWrapper::executeStatements`: calls `sqlite3_exec` on the owned
handle and returns `rcode == SQLITE_OK`; `sqlite3_exec` on a null handle
is `SQLITE_MISUSE`, i.e. failure with no effect. -/
def CrudWrapper.executeStatements (w : CrudWrapper) (statements : List SqlStmt) :
    Bool × CrudWrapper :=
  match w.m_db with
  | none => (false, w)
  | some d =>
    let r := sqlite3Exec d statements
    (r.1, ⟨w.m_db_path, some r.2⟩)

/-- `sqlite3_reset`: rewinds the statement's step cursor to the first
result row; bindings are untouched. -/
def sqlite3Reset (s : Stmt) : Stmt :=
  { s with cursor := 0 }

/-- Record a binding at a position, replacing any previous binding there. -/
def setBinding : List (Nat × String) → Nat → String → List (Nat × String)
  | [], pos, text => [(pos, text)]
  | (q, v) :: rest, pos, text =>
    if q = pos then (pos, text) :: rest else (q, v) :: setBinding rest pos text

/-- Read back the binding at a position, if any. -/
def getBinding : List (Nat × String) → Nat → Option String
  | [], _ => none
  | (q, v) :: rest, pos => if q = pos then some v else getBinding rest pos

/-- The `static_cast<int>(position)` at the `sqlite3_bind_text` call
site: the `std::size_t` position is converted to a signed 32-bit `int`,
i.e. reduced modulo `2^32` and reinterpreted in two's complement. -/
def toInt32 (n : Nat) : Int :=
  if n % 2 ^ 32 < 2 ^ 31 then (n % 2 ^ 32 : Int) else (n % 2 ^ 32 : Int) - 2 ^ 32

/-- `sqlite3_bind_text` on an already-cast `int` index: accepts the bind
(`SQLITE_OK`) exactly when the 1-based index is within the statement's
parameter count, storing the text at that index; otherwise
`SQLITE_RANGE`, leaving the statement unchanged. -/
def sqlite3BindText (s : Stmt) (text : String) (i : Int) : Bool × Stmt :=
  if 1 ≤ i ∧ i ≤ (s.paramCount : Int) then
    (true, { s with bindings := setBinding s.bindings i.toNat text })
  else
    (false, s)

/-- `CrudWrapper::PreparedStatement`: owns an (initialised or null)
statement handle. -/
structure PreparedStatement where
  m_stmt : Option Stmt
deriving DecidableEq, Repr

/-- `PreparedStatement::bindText`: false on a null statement; otherwise
`sqlite3_reset` then `sqlite3_bind_text` at `static_cast<int>(position)`,
returning whether the engine accepted the bind. -/
def PreparedStatement.bindText (ps : PreparedStatement) (text : String)
    (position : Nat) : Bool × PreparedStatement :=
  match ps.m_stmt with
  | none => (false, ps)
  | some s =>
    let r := sqlite3BindText (sqlite3Reset s) text (toInt32 position)
    (r.1, ⟨some r.2⟩)

/-- `CrudWrapper::prepareStatement`: wraps `initializeStatement` on the
owned handle (modelled for the select-all statements the wrapper builds). -/
def CrudWrapper.prepareStatement (w : CrudWrapper) (tableName : String) :
    PreparedStatement :=
  ⟨initializeStatement w.m_db tableName⟩

/-- `CrudWrapper::getRows` (PreparedStatement overload): reads the rows of
the wrapped statement handle. -/
def CrudWrapper.getRowsPrepared (_w : CrudWrapper) (statement : PreparedStatement) :
    List (List String) :=
  getRowsFromStatement statement.m_stmt

/-! ### Supporting lemmas -/

theorem range_map_getD {α β : Type} (f : α → β) (d : α) (l : List α) :
    (List.range l.length).map (fun i => f (l.getD i d)) = l.map f := by
  induction l with
  | nil => rfl
  | cons a tl ih =>
    rw [List.length_cons, List.range_succ_eq_map, List.map_cons, List.map_map]
    have h2 : ((fun i => f ((a :: tl).getD i d)) ∘ Nat.succ)
        = fun i => f (tl.getD i d) := rfl
    rw [h2, ih]
    rfl

theorem range_map_getD_self {α : Type} (d : α) (l : List α) :
    (List.range l.length).map (fun i => l.getD i d) = l := by
  simpa using range_map_getD id d l

/-- Reading the header of a freshly prepared statement recovers the
statement's column metadata in order. -/
theorem getColumnsNames_some (s : Stmt) :
    getColumnsNamesFromStatement (some s) = s.columns := by
  show (List.range s.columns.length).map (columnName s) = s.columns
  exact range_map_getD_self "" s.columns

/-- The step loop stringifies each well-sized row exactly. -/
theorem stepRows_of_sized (n : Nat) (rows : List (List SqlValue))
    (h : ∀ r ∈ rows, r.length = n) :
    stepRows n rows = rows.map (fun r => r.map valueToText) := by
  induction rows with
  | nil => rfl
  | cons r rest ih =>
    have hr : r.length = n := h r (List.mem_cons_self r rest)
    have hrest : ∀ x ∈ rest, x.length = n := fun x hx => h x (List.mem_cons_of_mem r hx)
    simp only [stepRows, List.map_cons, ih hrest]
    congr 1
    calc (List.range n).map (columnText r)
        = (List.range r.length).map (fun i => valueToText (r.getD i (.textV ""))) := by
          rw [hr]; rfl
      _ = r.map valueToText := range_map_getD valueToText (.textV "") r

/-- Every row the step loop produces has exactly `n` entries. -/
theorem stepRows_length (n : Nat) (rows : List (List SqlValue)) :
    ∀ r ∈ stepRows n rows, r.length = n := by
  induction rows with
  | nil => intro r hr; cases hr
  | cons row rest ih =>
    intro r hr
    rcases List.mem_cons.mp hr with h | h
    · subst h; simp
    · exact ih r h

theorem lookupTable_append_of_none (d : Database) (t : String) (tbl : Table)
    (h : lookupTable d t = none) :
    lookupTable (d ++ [(t, tbl)]) t = some tbl := by
  induction d with
  | nil => simp [lookupTable]
  | cons p rest ih =>
    obtain ⟨n, x⟩ := p
    by_cases hn : n = t
    · simp [lookupTable, hn] at h
    · rw [List.cons_append]
      simp only [lookupTable, hn, if_false] at h ⊢
      exact ih h

theorem lookupTable_updateTable_self (d : Database) (t : String) (tbl x : Table)
    (h : lookupTable d t = some x) :
    lookupTable (updateTable d t tbl) t = some tbl := by
  induction d with
  | nil => simp [lookupTable] at h
  | cons p rest ih =>
    obtain ⟨n, y⟩ := p
    by_cases hn : n = t
    · simp [updateTable, hn, lookupTable]
    · simp only [lookupTable, hn, if_false] at h
      simp only [updateTable, hn, if_false, lookupTable]
      exact ih h

theorem lookupTable_removeTable_self (d : Database) (t : String) :
    lookupTable (removeTable d t) t = none := by
  induction d with
  | nil => rfl
  | cons p rest ih =>
    obtain ⟨n, y⟩ := p
    by_cases hn : n = t
    · simpa [removeTable, hn] using ih
    · simpa [removeTable, lookupTable, hn] using ih

/-- `sqlite3_exec` reports success exactly when the pure engine semantics
executes the whole script. -/
theorem sqlite3Exec_fst (d : Database) (ss : List SqlStmt) :
    (sqlite3Exec d ss).1 = (execStmts d ss).isSome := by
  induction ss generalizing d with
  | nil => rfl
  | cons s rest ih =>
    simp only [sqlite3Exec, execStmts]
    cases execStmt d s with
    | none => rfl
    | some d2 => exact ih d2

/-- On a fully successful script, `sqlite3_exec` returns `SQLITE_OK` and
the state the pure semantics computes. -/
theorem sqlite3Exec_of_success (d d2 : Database) (ss : List SqlStmt)
    (h : execStmts d ss = some d2) :
    sqlite3Exec d ss = (true, d2) := by
  induction ss generalizing d with
  | nil =>
    simp only [execStmts, Option.some.injEq] at h
    subst h
    rfl
  | cons s rest ih =>
    simp only [execStmts] at h
    cases hs : execStmt d s with
    | none => rw [hs] at h; cases h
    | some dmid =>
      rw [hs] at h
      simpa [sqlite3Exec, hs] using ih dmid h

/-- Preparing the select-all statement for a table present in the
database yields a fresh statement over its schema and rows. -/
theorem buildSelectAll_of_lookup (db : Option Database) (tableName : String)
    (d : Database) (tbl : Table) (hdb : db = some d)
    (htbl : lookupTable d tableName = some tbl) :
    buildSelectAllFromTableStatement db tableName
      = some ⟨tbl.columns, tbl.rows, 0, [], 0⟩ := by
  simp [buildSelectAllFromTableStatement, initializeStatement, hdb, htbl]

/-- `peekColumnsNames` on a table present in the database returns its
declared columns. -/
theorem peekColumnsNames_of_lookup (w : CrudWrapper) (tableName : String)
    (d : Database) (tbl : Table) (hdb : w.m_db = some d)
    (htbl : lookupTable d tableName = some tbl) :
    w.peekColumnsNames tableName = tbl.columns := by
  simp only [CrudWrapper.peekColumnsNames,
    buildSelectAll_of_lookup w.m_db tableName d tbl hdb htbl]
  exact getColumnsNames_some _

/-- `getRows` on a well-formed table present in the database returns the
declared columns then the stringified stored rows. -/
theorem getRows_of_lookup (w : CrudWrapper) (tableName : String)
    (d : Database) (tbl : Table) (hdb : w.m_db = some d)
    (htbl : lookupTable d tableName = some tbl) (hwf : tbl.wellFormed) :
    w.getRows tableName
      = tbl.columns :: tbl.rows.map (fun r => r.map valueToText) := by
  have hcols : getColumnsNamesFromStatement
      (some (⟨tbl.columns, tbl.rows, 0, [], 0⟩ : Stmt)) = tbl.columns :=
    getColumnsNames_some _
  simp only [CrudWrapper.getRows,
    buildSelectAll_of_lookup w.m_db tableName d tbl hdb htbl,
    getRowsFromStatement, hcols, List.drop_zero]
  rw [stepRows_of_sized tbl.columns.length tbl.rows hwf]

/-- `peekColumnsNames` and `getRows` on a table name absent from the
database return the empty list and the header-only table. -/
theorem peek_getRows_of_missing (w : CrudWrapper) (tableName : String)
    (d : Database) (hdb : w.m_db = some d)
    (hmissing : lookupTable d tableName = none) :
    w.peekColumnsNames tableName = [] ∧ w.getRows tableName = [[]] := by
  have hstmt : buildSelectAllFromTableStatement w.m_db tableName = none := by
    simp [buildSelectAllFromTableStatement, initializeStatement, hdb, hmissing]
  constructor
  · simp [CrudWrapper.peekColumnsNames, hstmt, getColumnsNamesFromStatement]
  · simp [CrudWrapper.getRows, hstmt, getRowsFromStatement, getColumnsNamesFromStatement]

/-- After a successful rebind, reading back the bound position yields the
new text. -/
theorem getBinding_setBinding_self (b : List (Nat × String)) (pos : Nat)
    (text : String) :
    getBinding (setBinding b pos text) pos = some text := by
  induction b with
  | nil => simp [setBinding, getBinding]
  | cons p rest ih =>
    obtain ⟨q, v⟩ := p
    by_cases hq : q = pos
    · simp [setBinding, hq, getBinding]
    · simp [setBinding, getBinding, hq, ih]

/-! ### Sample data for witnesses -/

/-- A small concrete table in the shape of the repository's album.db. -/
def albumTable : Table :=
  ⟨["id", "title"], [[.intV 1, .textV "Two Men with the Blues"]]⟩

/-- A concrete database holding only `albumTable`. -/
def albumDb : Database := [("album", albumTable)]

/-- A successfully constructed wrapper over `albumDb`. -/
def albumWrapper : CrudWrapper := ⟨"db/album.db", some albumDb⟩

/-! ### Claims -/

/-- C1: for every table name (existing or not), `getRows` returns a
non-empty list whose first element equals `peekColumnsNames` of the same
table name; and for a known (well-formed) table, the subsequent elements
are exactly the stored rows with each column value converted to its text
representation, in storage order. -/
theorem claim_C1_header_then_stringified_rows (w : CrudWrapper) (tableName : String) :
    (w.getRows tableName ≠ [] ∧
      (w.getRows tableName).head? = some (w.peekColumnsNames tableName)) ∧
    (∀ d tbl, w.m_db = some d → lookupTable d tableName = some tbl →
      tbl.wellFormed →
      w.getRows tableName
        = tbl.columns :: tbl.rows.map (fun r => r.map valueToText)) := by
  constructor
  · constructor
    · simp [CrudWrapper.getRows, getRowsFromStatement]
    · simp [CrudWrapper.getRows, CrudWrapper.peekColumnsNames, getRowsFromStatement]
  · intro d tbl hdb htbl hwf
    exact getRows_of_lookup w tableName d tbl hdb htbl hwf

/-- C1 witness: evaluated on a concrete one-table database. -/
theorem claim_C1_header_then_stringified_rows_witness :
    albumWrapper.getRows "album"
      = [["id", "title"], ["1", "Two Men with the Blues"]] :=
  (claim_C1_header_then_stringified_rows albumWrapper "album").2
    albumDb albumTable rfl (by decide) (by decide)

/-- C2: for a table name not present in the database, `peekColumnsNames`
returns the empty list and `getRows` returns the single-row table holding
only the empty header; both are ordinary returns (the operations are
total, no error path exists). -/
theorem claim_C2_missing_table_empty_results (w : CrudWrapper) (tableName : String)
    (d : Database) (hdb : w.m_db = some d)
    (hmissing : lookupTable d tableName = none) :
    w.peekColumnsNames tableName = [] ∧ w.getRows tableName = [[]] :=
  peek_getRows_of_missing w tableName d hdb hmissing

/-- C2 witness: a name absent from the concrete database. -/
theorem claim_C2_missing_table_empty_results_witness :
    albumWrapper.peekColumnsNames "nonExistingTable1" = [] ∧
    albumWrapper.getRows "nonExistingTable1" = [[]] :=
  claim_C2_missing_table_empty_results albumWrapper "nonExistingTable1"
    albumDb rfl (by decide)

/-- C5: for a table existing in the database, `peekColumnsNames` returns
exactly the declared column names, in declared order. -/
theorem claim_C5_peek_matches_schema (w : CrudWrapper) (tableName : String)
    (d : Database) (tbl : Table) (hdb : w.m_db = some d)
    (htbl : lookupTable d tableName = some tbl) :
    w.peekColumnsNames tableName = tbl.columns :=
  peekColumnsNames_of_lookup w tableName d tbl hdb htbl

/-- C5 witness: evaluated on the concrete album table. -/
theorem claim_C5_peek_matches_schema_witness :
    albumWrapper.peekColumnsNames "album" = ["id", "title"] :=
  claim_C5_peek_matches_schema albumWrapper "album" albumDb albumTable
    rfl (by decide)

/-- C10: for every statement (null or prepared, with result rows of any
widths), the first row of `getRowsFromStatement` is the header and every
subsequent row has exactly as many entries as the header — the statement's
column count — regardless of the width the engine reports for the stepped
row. -/
theorem claim_C10_data_rows_match_header_width (stmt : Option Stmt)
    (r : List String) (hr : r ∈ (getRowsFromStatement stmt).tail) :
    (getRowsFromStatement stmt).head?
      = some (getColumnsNamesFromStatement stmt) ∧
    r.length = (getColumnsNamesFromStatement stmt).length := by
  constructor
  · simp [getRowsFromStatement]
  · cases stmt with
    | none => simp [getRowsFromStatement] at hr
    | some s =>
      have h2 : r ∈ stepRows (getColumnsNamesFromStatement (some s)).length
          (s.resultRows.drop s.cursor) := by
        simpa [getRowsFromStatement] using hr
      exact stepRows_length _ _ r h2

/-- C10 witness: a statement whose stored rows are wider and narrower than
the header still yields data rows of exactly the header's width. -/
theorem claim_C10_data_rows_match_header_width_witness :
    (getRowsFromStatement
        (some ⟨["a", "b"], [[.intV 1], [.intV 1, .intV 2, .intV 3]], 0, [], 0⟩)).head?
      = some (getColumnsNamesFromStatement
          (some ⟨["a", "b"], [[.intV 1], [.intV 1, .intV 2, .intV 3]], 0, [], 0⟩)) ∧
    ([("1" : String), ""]).length
      = (getColumnsNamesFromStatement
          (some ⟨["a", "b"], [[.intV 1], [.intV 1, .intV 2, .intV 3]], 0, [], 0⟩)).length :=
  claim_C10_data_rows_match_header_width
    (some ⟨["a", "b"], [[.intV 1], [.intV 1, .intV 2, .intV 3]], 0, [], 0⟩)
    ["1", ""] (by decide)

/-- C3: constructing over a non-existent filesystem path fails with the
path-not-found (filesystem) error, and does so before any attempt to open
the engine — the outcome is the same whatever the engine's open function
would do. -/
theorem claim_C3_missing_path_fails_before_open (pe : String → Bool)
    (op op2 : String → Option Database) (path : String)
    (h : pe path = false) :
    crudWrapperCtor ⟨pe, op⟩ path = .error .filesystemError ∧
    crudWrapperCtor ⟨pe, op⟩ path = crudWrapperCtor ⟨pe, op2⟩ path := by
  constructor
  · simp [crudWrapperCtor, h]
  · simp [crudWrapperCtor, h]

/-- C3 witness: a concrete environment in which the path does not exist,
under two engines that disagree about opening it. -/
theorem claim_C3_missing_path_fails_before_open_witness :
    crudWrapperCtor ⟨fun _ => false, fun _ => none⟩ "/non/existing/path"
      = .error .filesystemError ∧
    crudWrapperCtor ⟨fun _ => false, fun _ => none⟩ "/non/existing/path"
      = crudWrapperCtor ⟨fun _ => false, fun _ => some albumDb⟩ "/non/existing/path" :=
  claim_C3_missing_path_fails_before_open (fun _ => false) (fun _ => none)
    (fun _ => some albumDb) "/non/existing/path" rfl

/-- C4: on an existing path, construction succeeds when the engine opens
the file, and fails with the open-failure (runtime) error — a distinct
error kind from path-not-found — when the engine rejects it. -/
theorem claim_C4_existing_path_open_outcomes (pe : String → Bool)
    (op : String → Option Database) (p1 p2 : String) (d : Database)
    (h1 : pe p1 = true) (h2 : op p1 = some d)
    (h3 : pe p2 = true) (h4 : op p2 = none) :
    crudWrapperCtor ⟨pe, op⟩ p1 = .ok ⟨p1, some d⟩ ∧
    crudWrapperCtor ⟨pe, op⟩ p2 = .error .runtimeError ∧
    ConstructionError.runtimeError ≠ ConstructionError.filesystemError := by
  refine ⟨?_, ?_, by decide⟩
  · simp [crudWrapperCtor, h1, h2]
  · simp [crudWrapperCtor, h3, h4]

/-- C4 witness: a concrete environment where every path exists, the engine
opens one path and rejects another. -/
theorem claim_C4_existing_path_open_outcomes_witness :
    crudWrapperCtor
        ⟨fun _ => true, fun s => if s = "db/album.db" then some albumDb else none⟩
        "db/album.db" = .ok ⟨"db/album.db", some albumDb⟩ ∧
    crudWrapperCtor
        ⟨fun _ => true, fun s => if s = "db/album.db" then some albumDb else none⟩
        "db/corrupt.db" = .error .runtimeError ∧
    ConstructionError.runtimeError ≠ ConstructionError.filesystemError :=
  claim_C4_existing_path_open_outcomes (fun _ => true)
    (fun s => if s = "db/album.db" then some albumDb else none)
    "db/album.db" "db/corrupt.db" albumDb rfl (by decide) rfl (by decide)

/-- C6: `executeStatements` returns a boolean alone, and it is `true`
exactly when the engine executes the whole semicolon-separated script
successfully; no row data is part of the result. -/
theorem claim_C6_execute_returns_engine_success (w : CrudWrapper)
    (d : Database) (ss : List SqlStmt) (hdb : w.m_db = some d) :
    (w.executeStatements ss).1 = (execStmts d ss).isSome := by
  simp [CrudWrapper.executeStatements, hdb, sqlite3Exec_fst]

/-- C6 witness: a concrete successful script and a concrete failing one. -/
theorem claim_C6_execute_returns_engine_success_witness :
    (albumWrapper.executeStatements [.createTable "newTable" ["column1"]]).1
      = (execStmts albumDb [.createTable "newTable" ["column1"]]).isSome ∧
    (albumWrapper.executeStatements [.dropTable "newTable"]).1
      = (execStmts albumDb [.dropTable "newTable"]).isSome :=
  ⟨claim_C6_execute_returns_engine_success albumWrapper albumDb
      [.createTable "newTable" ["column1"]] rfl,
    claim_C6_execute_returns_engine_success albumWrapper albumDb
      [.dropTable "newTable"] rfl⟩

/-- C8: past construction the operations are total — in the embedding
every operation returns an ordinary value for every input — and failures
surface only as the empty/default results or a false boolean: a failed
statement preparation gives the empty column list and the header-only row
table, a failing script gives `false`, and binding on a null statement
gives `false`. -/
theorem claim_C8_failures_surface_as_defaults (w : CrudWrapper)
    (tableName : String) (d : Database) (p : String) (ss : List SqlStmt)
    (txt : String) (pos : Nat)
    (hprep : buildSelectAllFromTableStatement w.m_db tableName = none)
    (hfail : execStmts d ss = none) :
    w.peekColumnsNames tableName = [] ∧
    w.getRows tableName = [[]] ∧
    ((⟨p, some d⟩ : CrudWrapper).executeStatements ss).1 = false ∧
    PreparedStatement.bindText ⟨none⟩ txt pos = (false, ⟨none⟩) := by
  refine ⟨?_, ?_, ?_, rfl⟩
  · simp [CrudWrapper.peekColumnsNames, hprep, getColumnsNamesFromStatement]
  · simp [CrudWrapper.getRows, hprep, getRowsFromStatement,
      getColumnsNamesFromStatement]
  · simp [CrudWrapper.executeStatements, sqlite3Exec_fst, hfail]

/-- C8 witness: a missing table, a failing script (dropping an unknown
table) and a null prepared statement, all surfacing as defaults. -/
theorem claim_C8_failures_surface_as_defaults_witness :
    albumWrapper.peekColumnsNames "nonExistingTable2" = [] ∧
    albumWrapper.getRows "nonExistingTable2" = [[]] ∧
    ((⟨"db/album.db", some albumDb⟩ : CrudWrapper).executeStatements
        [.dropTable "nonExistingTable2"]).1 = false ∧
    PreparedStatement.bindText ⟨none⟩ "text" 1 = (false, ⟨none⟩) :=
  claim_C8_failures_surface_as_defaults albumWrapper "nonExistingTable2"
    albumDb "db/album.db" [.dropTable "nonExistingTable2"] "text" 1
    (by decide) (by decide)

/-- C9: `bindText` returns `false` on a statement whose preparation failed
(null handle, as `prepareStatement` yields on a null database); on a live
statement it resets the step cursor before binding, stores the text at the
index `static_cast<int>(position)` so that a later bind at the same
position replaces the earlier value, and returns `true` exactly when the
engine accepts the bind — i.e. when the wrapped 32-bit index lies between
1 and the parameter count. -/
theorem claim_C9_prepared_statement_rebinding (w : CrudWrapper) (s : Stmt)
    (tableName t1 t2 txt : String) (p q : Nat)
    (hnull : w.m_db = none)
    (hp : 1 ≤ toInt32 p ∧ toInt32 p ≤ (s.paramCount : Int)) :
    (w.prepareStatement tableName).bindText txt p
        = (false, w.prepareStatement tableName) ∧
    ((PreparedStatement.bindText ⟨some s⟩ t1 p).1 = true ∧
      ∃ s1, (PreparedStatement.bindText ⟨some s⟩ t1 p).2 = ⟨some s1⟩ ∧
        s1.cursor = 0 ∧ getBinding s1.bindings (toInt32 p).toNat = some t1 ∧
        (PreparedStatement.bindText ⟨some s1⟩ t2 p).1 = true ∧
        ∃ s2, (PreparedStatement.bindText ⟨some s1⟩ t2 p).2 = ⟨some s2⟩ ∧
          s2.cursor = 0 ∧ getBinding s2.bindings (toInt32 p).toNat = some t2) ∧
    ((PreparedStatement.bindText ⟨some s⟩ txt q).1 = true
      ↔ 1 ≤ toInt32 q ∧ toInt32 q ≤ (s.paramCount : Int)) := by
  have hps : w.prepareStatement tableName = ⟨none⟩ := by
    simp [CrudWrapper.prepareStatement, hnull, initializeStatement]
  refine ⟨by rw [hps]; rfl, ?_, ?_⟩
  · refine ⟨?_, ?_⟩
    · simp [PreparedStatement.bindText, sqlite3BindText, sqlite3Reset, hp]
    · refine ⟨⟨s.columns, s.resultRows, s.paramCount,
          setBinding s.bindings (toInt32 p).toNat t1, 0⟩, ?_, rfl,
          getBinding_setBinding_self s.bindings (toInt32 p).toNat t1, ?_, ?_⟩
      · simp [PreparedStatement.bindText, sqlite3BindText, sqlite3Reset, hp]
      · simp [PreparedStatement.bindText, sqlite3BindText, sqlite3Reset, hp]
      · refine ⟨⟨s.columns, s.resultRows, s.paramCount,
            setBinding (setBinding s.bindings (toInt32 p).toNat t1)
              (toInt32 p).toNat t2, 0⟩, ?_, rfl,
            getBinding_setBinding_self _ (toInt32 p).toNat t2⟩
        simp [PreparedStatement.bindText, sqlite3BindText, sqlite3Reset, hp]
  · constructor
    · intro hq
      by_contra hcon
      simp [PreparedStatement.bindText, sqlite3BindText, sqlite3Reset, hcon] at hq
    · intro hq
      have hq1 : 1 ≤ toInt32 q ∧ toInt32 q ≤ ((sqlite3Reset s).paramCount : Int) := hq
      simp [PreparedStatement.bindText, sqlite3BindText, hq1]

/-- C9 witness: a two-parameter statement with a stale cursor, rebound
twice at position 1, a bind at position `2^32 + 1` — whose cast wraps to
index 1, so the engine accepts it — and a null statement from a null
database. -/
theorem claim_C9_prepared_statement_rebinding_witness :
    ((⟨"p", none⟩ : CrudWrapper).prepareStatement "album").bindText "txt" 1
        = (false, (⟨"p", none⟩ : CrudWrapper).prepareStatement "album") ∧
    ((PreparedStatement.bindText ⟨some ⟨[], [], 2, [], 5⟩⟩ "first" 1).1 = true ∧
      ∃ s1, (PreparedStatement.bindText ⟨some ⟨[], [], 2, [], 5⟩⟩ "first" 1).2
          = ⟨some s1⟩ ∧
        s1.cursor = 0 ∧ getBinding s1.bindings (toInt32 1).toNat = some "first" ∧
        (PreparedStatement.bindText ⟨some s1⟩ "second" 1).1 = true ∧
        ∃ s2, (PreparedStatement.bindText ⟨some s1⟩ "second" 1).2 = ⟨some s2⟩ ∧
          s2.cursor = 0 ∧ getBinding s2.bindings (toInt32 1).toNat = some "second") ∧
    ((PreparedStatement.bindText ⟨some ⟨[], [], 2, [], 5⟩⟩ "txt" 4294967297).1 = true
      ↔ 1 ≤ toInt32 4294967297 ∧
        toInt32 4294967297 ≤ (((⟨[], [], 2, [], 5⟩ : Stmt)).paramCount : Int)) :=
  claim_C9_prepared_statement_rebinding ⟨"p", none⟩ ⟨[], [], 2, [], 5⟩
    "album" "first" "second" "txt" 1 4294967297 rfl (by decide)

/-- C7: after `executeStatements` successfully runs a
create/insert/insert/insert script for a previously absent table, the very
next `peekColumnsNames` and `getRows` on the same instance observe the new
table and its rows; and after a successful drop, `getRows` on that name
returns the same header-only result as for a table that never existed. -/
theorem claim_C7_ddl_dml_effects_visible (w : CrudWrapper) (d : Database)
    (t : String) (cols : List String) (v1 v2 v3 : List SqlValue)
    (hdb : w.m_db = some d) (hmissing : lookupTable d t = none)
    (h1 : v1.length = cols.length) (h2 : v2.length = cols.length)
    (h3 : v3.length = cols.length) :
    ∃ w1 w2 : CrudWrapper,
      w.executeStatements
          [.createTable t cols, .insertInto t v1, .insertInto t v2,
            .insertInto t v3] = (true, w1) ∧
      w1.peekColumnsNames t = cols ∧
      w1.getRows t
        = cols :: [v1.map valueToText, v2.map valueToText, v3.map valueToText] ∧
      w1.executeStatements [.dropTable t] = (true, w2) ∧
      w2.getRows t = [[]] ∧
      w2.getRows t = w.getRows t := by
  have e1 : execStmt d (.createTable t cols) = some (d ++ [(t, ⟨cols, []⟩)]) := by
    simp [execStmt, hmissing]
  have l1 : lookupTable (d ++ [(t, ⟨cols, []⟩)]) t = some ⟨cols, []⟩ :=
    lookupTable_append_of_none d t _ hmissing
  have e2 : execStmt (d ++ [(t, ⟨cols, []⟩)]) (.insertInto t v1)
      = some (updateTable (d ++ [(t, ⟨cols, []⟩)]) t ⟨cols, [v1]⟩) := by
    simp [execStmt, l1, h1]
  have l2 : lookupTable (updateTable (d ++ [(t, ⟨cols, []⟩)]) t ⟨cols, [v1]⟩) t
      = some ⟨cols, [v1]⟩ :=
    lookupTable_updateTable_self _ t _ _ l1
  have e3 : execStmt (updateTable (d ++ [(t, ⟨cols, []⟩)]) t ⟨cols, [v1]⟩)
      (.insertInto t v2)
      = some (updateTable (updateTable (d ++ [(t, ⟨cols, []⟩)]) t ⟨cols, [v1]⟩)
          t ⟨cols, [v1, v2]⟩) := by
    simp [execStmt, l2, h2]
  have l3 : lookupTable (updateTable (updateTable (d ++ [(t, ⟨cols, []⟩)]) t
      ⟨cols, [v1]⟩) t ⟨cols, [v1, v2]⟩) t = some ⟨cols, [v1, v2]⟩ :=
    lookupTable_updateTable_self _ t _ _ l2
  have e4 : execStmt (updateTable (updateTable (d ++ [(t, ⟨cols, []⟩)]) t
      ⟨cols, [v1]⟩) t ⟨cols, [v1, v2]⟩) (.insertInto t v3)
      = some (updateTable (updateTable (updateTable (d ++ [(t, ⟨cols, []⟩)]) t
          ⟨cols, [v1]⟩) t ⟨cols, [v1, v2]⟩) t ⟨cols, [v1, v2, v3]⟩) := by
    simp [execStmt, l3, h3]
  have l4 : lookupTable (updateTable (updateTable (updateTable
      (d ++ [(t, ⟨cols, []⟩)]) t ⟨cols, [v1]⟩) t ⟨cols, [v1, v2]⟩) t
      ⟨cols, [v1, v2, v3]⟩) t = some ⟨cols, [v1, v2, v3]⟩ :=
    lookupTable_updateTable_self _ t _ _ l3
  have hexec : execStmts d
      [.createTable t cols, .insertInto t v1, .insertInto t v2, .insertInto t v3]
      = some (updateTable (updateTable (updateTable (d ++ [(t, ⟨cols, []⟩)]) t
          ⟨cols, [v1]⟩) t ⟨cols, [v1, v2]⟩) t ⟨cols, [v1, v2, v3]⟩) := by
    simp [execStmts, e1, e2, e3, e4]
  have hrun := sqlite3Exec_of_success _ _ _ hexec
  have hw1 : w.executeStatements
      [.createTable t cols, .insertInto t v1, .insertInto t v2, .insertInto t v3]
      = (true, ⟨w.m_db_path, some (updateTable (updateTable (updateTable
          (d ++ [(t, ⟨cols, []⟩)]) t ⟨cols, [v1]⟩) t ⟨cols, [v1, v2]⟩) t
          ⟨cols, [v1, v2, v3]⟩)⟩) := by
    simp [CrudWrapper.executeStatements, hdb, hrun]
  have e5 : execStmt (updateTable (updateTable (updateTable
      (d ++ [(t, ⟨cols, []⟩)]) t ⟨cols, [v1]⟩) t ⟨cols, [v1, v2]⟩) t
      ⟨cols, [v1, v2, v3]⟩) (.dropTable t)
      = some (removeTable (updateTable (updateTable (updateTable
          (d ++ [(t, ⟨cols, []⟩)]) t ⟨cols, [v1]⟩) t ⟨cols, [v1, v2]⟩) t
          ⟨cols, [v1, v2, v3]⟩) t) := by
    simp [execStmt, l4]
  have hexec2 : execStmts (updateTable (updateTable (updateTable
      (d ++ [(t, ⟨cols, []⟩)]) t ⟨cols, [v1]⟩) t ⟨cols, [v1, v2]⟩) t
      ⟨cols, [v1, v2, v3]⟩) [.dropTable t]
      = some (removeTable (updateTable (updateTable (updateTable
          (d ++ [(t, ⟨cols, []⟩)]) t ⟨cols, [v1]⟩) t ⟨cols, [v1, v2]⟩) t
          ⟨cols, [v1, v2, v3]⟩) t) := by
    simp [execStmts, e5]
  have hrun2 := sqlite3Exec_of_success _ _ _ hexec2
  have l5 : lookupTable (removeTable (updateTable (updateTable (updateTable
      (d ++ [(t, ⟨cols, []⟩)]) t ⟨cols, [v1]⟩) t ⟨cols, [v1, v2]⟩) t
      ⟨cols, [v1, v2, v3]⟩) t) t = none :=
    lookupTable_removeTable_self _ t
  have hwf : Table.wellFormed ⟨cols, [v1, v2, v3]⟩ := by
    intro r hr
    simp only [List.mem_cons, List.not_mem_nil, or_false] at hr
    rcases hr with rfl | rfl | rfl
    · exact h1
    · exact h2
    · exact h3
  refine ⟨⟨w.m_db_path, some (updateTable (updateTable (updateTable
      (d ++ [(t, ⟨cols, []⟩)]) t ⟨cols, [v1]⟩) t ⟨cols, [v1, v2]⟩) t
      ⟨cols, [v1, v2, v3]⟩)⟩,
    ⟨w.m_db_path, some (removeTable (updateTable (updateTable (updateTable
      (d ++ [(t, ⟨cols, []⟩)]) t ⟨cols, [v1]⟩) t ⟨cols, [v1, v2]⟩) t
      ⟨cols, [v1, v2, v3]⟩) t)⟩,
    hw1, peekColumnsNames_of_lookup _ t _ _ rfl l4, ?_, ?_, ?_, ?_⟩
  · exact getRows_of_lookup _ t _ _ rfl l4 hwf
  · simp [CrudWrapper.executeStatements, hrun2]
  · exact (peek_getRows_of_missing _ t _ rfl l5).2
  · rw [(peek_getRows_of_missing _ t _ rfl l5).2,
      (peek_getRows_of_missing w t d hdb hmissing).2]

/-- C7 witness: the test's `newTable` scenario on a concrete database —
create, three inserts, read back, drop, read back. -/
theorem claim_C7_ddl_dml_effects_visible_witness :
    ∃ w1 w2 : CrudWrapper,
      albumWrapper.executeStatements
          [.createTable "newTable" ["column1", "column2", "column3"],
            .insertInto "newTable" [.textV "r1c1", .textV "r1c2", .textV "r1c3"],
            .insertInto "newTable" [.textV "r2c1", .textV "r2c2", .textV "r2c3"],
            .insertInto "newTable" [.textV "r3c1", .textV "r3c2", .textV "r3c3"]]
        = (true, w1) ∧
      w1.peekColumnsNames "newTable" = ["column1", "column2", "column3"] ∧
      w1.getRows "newTable"
        = ["column1", "column2", "column3"]
            :: [["r1c1", "r1c2", "r1c3"], ["r2c1", "r2c2", "r2c3"],
                ["r3c1", "r3c2", "r3c3"]] ∧
      w1.executeStatements [.dropTable "newTable"] = (true, w2) ∧
      w2.getRows "newTable" = [[]] ∧
      w2.getRows "newTable" = albumWrapper.getRows "newTable" :=
  claim_C7_ddl_dml_effects_visible albumWrapper albumDb "newTable"
    ["column1", "column2", "column3"]
    [.textV "r1c1", .textV "r1c2", .textV "r1c3"]
    [.textV "r2c1", .textV "r2c2", .textV "r2c3"]
    [.textV "r3c1", .textV "r3c2", .textV "r3c3"]
    rfl (by decide) (by decide) (by decide) (by decide)

end SqlWithCpp
